import Mathlib

/-!
Shallow embedding of the VPC provisioning service
(`app/lambda_functions/common/vpc_manager.py`, `common/dynamodb.py`,
`common/validation.py`, `delete_vpc.py`) and proofs about it.

Cloud-provider calls are modelled through an explicit `Ec2Provider`
capability record; every call made by the orchestrator is recorded in a
trace, so statements such as "no provider call is made" or "delete is
invoked on the partial VPC id" are expressible.

Python string primitives (`split`, `join`, `in`, `int(...)`) are embedded
as structurally recursive functions over `List Char`, so that all
definitions reduce inside the kernel.
-/

namespace VpcApi

/-- Model of Python `s.split(sep)` for a one-character separator, on the
character list of the string: `"" -> [""]`, separators at the ends yield
empty fields, exactly like CPython. -/
def splitOnChar (sep : Char) : List Char → List (List Char)
  | [] => [[]]
  | c :: rest =>
    let r := splitOnChar sep rest
    if c = sep then [] :: r
    else
      match r with
      | [] => [[c]]
      | h :: t => (c :: h) :: t

/-- `s.split(sep)` at the `String` level. -/
def pySplit (s : String) (sep : Char) : List String :=
  (splitOnChar sep s.data).map String.mk

/-- Python `sep in s` for a one-character separator. -/
def pyContains (s : String) (sep : Char) : Bool :=
  s.data.any (· = sep)

/-- Python `'.'.join(xs)`. -/
def joinDot (xs : List String) : String :=
  String.mk (List.intersperse ['.'] (xs.map String.data)).flatten

/-- Value of a list of decimal digit characters. -/
def digitsToNat (cs : List Char) : Nat :=
  cs.foldl (fun acc c => acc * 10 + (c.toNat - 48)) 0

/-- Nonempty all-digit character list, else `none`. -/
def parseDigits (cs : List Char) : Option Nat :=
  if cs ≠ [] ∧ cs.all Char.isDigit then some (digitsToNat cs) else none

/-- Model of Python `int(s)`: optional sign followed by decimal digits,
surrounding whitespace stripped (digit-grouping underscores are not
modelled); `none` where `int` raises `ValueError`. -/
def pythonInt (s : String) : Option Int :=
  let t := (s.data.dropWhile Char.isWhitespace).reverse.dropWhile Char.isWhitespace |>.reverse
  match t with
  | '-' :: rest => (parseDigits rest).map (fun n => -(n : Int))
  | '+' :: rest => (parseDigits rest).map (fun n => (n : Int))
  | _ => (parseDigits t).map (fun n => (n : Int))

/-- Embedding of `VPCManager._validate_cidr`: raises (returns `.error`)
on a CIDR without `/`, on an address part that does not split at `.` into
exactly four components, on a prefix that is not an integer, and on a
prefix outside `[16, 28]`.  A `cidr_block.split('/')` result with more
than two parts makes the Python tuple unpacking raise `ValueError`,
modelled by the catch-all match arm.  The individual octet strings are
never inspected. -/
def validateCidr (cidrBlock : String) : Except String Unit :=
  if !(pyContains cidrBlock '/') then
    Except.error ("Invalid CIDR block: " ++ cidrBlock)
  else
    match pySplit cidrBlock '/' with
    | [ip, pre] =>
      if (pySplit ip '.').length ≠ 4 then
        Except.error ("Invalid IP address in CIDR: " ++ ip)
      else
        match pythonInt pre with
        | none => Except.error ("Invalid CIDR prefix: " ++ pre)
        | some p =>
          if p < 16 ∨ p > 28 then
            Except.error ("Invalid CIDR prefix: " ++ pre)
          else
            Except.ok ()
    | _ => Except.error "too many values to unpack"

/-- Embedding of `VPCManager._calculate_subnet_cidr`: take the base
address (text before the first `/`), split it at `.`, overwrite the
component at position 2 with the decimal rendering of `subnet_index`, and
append `/24`.  Python's `octets[2] = ...` raises `IndexError` when fewer
than three components exist, modelled by `none`. -/
def calculateSubnetCidr (vpcCidr : String) (subnetIndex : Int) : Option String :=
  let baseIp := (pySplit vpcCidr '/').headD ""
  let octets := pySplit baseIp '.'
  if 2 < octets.length then
    some (joinDot (octets.set 2 (toString subnetIndex)) ++ "/24")
  else
    none

example : validateCidr "10.0.0.0/16" = Except.ok () := rfl
example : validateCidr "10.0.0.0/15" =
    Except.error "Invalid CIDR prefix: 15" := rfl
example : validateCidr "10.0.0.0/29" =
    Except.error "Invalid CIDR prefix: 29" := rfl
example : validateCidr "10.0.0.0/28" = Except.ok () := rfl
example : validateCidr "10.0.0.999/16" = Except.ok () := rfl
example : validateCidr "abc.0.0.0/16" = Except.ok () := rfl
example : validateCidr "10.0.0/16" =
    Except.error "Invalid IP address in CIDR: 10.0.0" := rfl
example : calculateSubnetCidr "10.0.0.0/16" 1 = some "10.0.1.0/24" := rfl
example : calculateSubnetCidr "10.0.0.0/16" 2 = some "10.0.2.0/24" := rfl

/-- An AWS `ClientError` payload: machine-readable code plus message. -/
structure AwsErr where
  code : String
  msg : String
deriving DecidableEq

/-- Python exceptions observable from the orchestrator: `ClientError`
from boto3, `ValueError` from validation, `IndexError` from list
assignment out of range. -/
inductive PyError where
  | clientError (code msg : String)
  | valueError (msg : String)
  | indexError
deriving DecidableEq

/-- One route-table association record as returned by the provider
(only the `main` flag is inspected by the source). -/
structure RtAssociation where
  main : Bool
deriving DecidableEq

/-- A route table as enumerated during delete: its id and its
association records. -/
structure RouteTableInfo where
  routeTableId : String
  associations : List RtAssociation
deriving DecidableEq

/-- The cloud-provider calls the orchestrator can issue, recorded in the
trace in issue order. -/
inductive Ec2Call where
  | createVpcCall (cidr : String)
  | modifyVpcAttributeCall (vpcId attrName : String)
  | describeAvailabilityZonesCall
  | createSubnetCall (vpcId cidr : String) (az : Option String)
  | modifySubnetAttributeCall (subnetId : String)
  | createInternetGatewayCall
  | attachInternetGatewayCall (igwId vpcId : String)
  | createRouteTableCall (vpcId : String)
  | createRouteCall (routeTableId dest gatewayId : String)
  | associateRouteTableCall (routeTableId subnetId : String)
  | describeSubnetsCall (vpcId : String)
  | deleteSubnetCall (subnetId : String)
  | describeRouteTablesCall (vpcId : String)
  | deleteRouteTableCall (routeTableId : String)
  | describeInternetGatewaysCall (vpcId : String)
  | detachInternetGatewayCall (igwId vpcId : String)
  | deleteInternetGatewayCall (igwId : String)
  | deleteVpcCall (vpcId : String)
deriving DecidableEq

/-- The cloud environment the orchestrator runs against: the response the
provider would give to each call (`Except.error` makes the call raise
`ClientError`), the region the manager was constructed with, and the
ambient clock (`datetime.utcnow().isoformat()`).
`availabilityZonesResp` is the response to `describe_availability_zones`
with the `state=available` filter, i.e. the zone names the provider
reports as available. -/
structure Ec2Provider where
  createVpcResp : String → Except AwsErr String
  modifyVpcAttributeResp : String → String → Except AwsErr Unit
  availabilityZonesResp : Except AwsErr (List String)
  createSubnetResp : String → String → Option String → Except AwsErr String
  modifySubnetAttributeResp : String → Except AwsErr Unit
  createInternetGatewayResp : Except AwsErr String
  attachInternetGatewayResp : String → String → Except AwsErr Unit
  createRouteTableResp : String → Except AwsErr String
  createRouteResp : String → String → String → Except AwsErr Unit
  associateRouteTableResp : String → String → Except AwsErr Unit
  subnetsResp : String → Except AwsErr (List String)
  routeTablesResp : String → Except AwsErr (List RouteTableInfo)
  internetGatewaysResp : String → Except AwsErr (List String)
  deleteSubnetResp : String → Except AwsErr Unit
  deleteRouteTableResp : String → Except AwsErr Unit
  detachInternetGatewayResp : String → String → Except AwsErr Unit
  deleteInternetGatewayResp : String → Except AwsErr Unit
  deleteVpcResp : String → Except AwsErr Unit
  regionName : String
  utcnowIso : String

/-- Orchestrator computations: given the trace of provider calls issued
so far, produce a result (or a raised exception) and the extended
trace. -/
def VpcM (α : Type) : Type :=
  List Ec2Call → Except PyError α × List Ec2Call

instance : Monad VpcM where
  pure a := fun log => (Except.ok a, log)
  bind m f := fun log =>
    match m log with
    | (Except.ok a, l) => f a l
    | (Except.error e, l) => (Except.error e, l)

/-- Issue one provider call: it is appended to the trace whether it
succeeds or raises. -/
def callEc2 {α : Type} (c : Ec2Call) (r : Except AwsErr α) : VpcM α :=
  fun log =>
    match r with
    | Except.ok a => (Except.ok a, log ++ [c])
    | Except.error e => (Except.error (PyError.clientError e.code e.msg), log ++ [c])

/-- `_calculate_subnet_cidr` as used inside `create_vpc`: the
out-of-range list assignment raises `IndexError`. -/
def calcSubnetCidrM (vpcCidr : String) (i : Int) : VpcM String :=
  fun log =>
    match calculateSubnetCidr vpcCidr i with
    | some s => (Except.ok s, log)
    | none => (Except.error PyError.indexError, log)

/-- The subnet dictionary returned by `_create_subnet` (Python key
`'type'` is spelled `subnetType`). -/
structure SubnetRecord where
  subnet_id : String
  cidr_block : String
  availability_zone : Option String
  subnetType : String
deriving DecidableEq

/-- The VPC dictionary returned by `create_vpc` (the single-key map
`route_tables = \x7b'public': rt\x7d` is spelled `route_tables_public`). -/
structure VpcDetails where
  vpc_id : String
  name : String
  cidr_block : String
  region : String
  subnets : List SubnetRecord
  internet_gateway_id : String
  route_tables_public : String
  status : String
  created_at : String
  created_by : String
deriving DecidableEq

/-- The dictionary returned by `delete_vpc` (manager) or substituted by
the delete handler; the two variants populate different optional keys. -/
structure DeletionRecord where
  vpc_id : String
  status : String
  deleted_at : Option String
  note : Option String
deriving DecidableEq

/-- Embedding of `VPCManager._create_subnet`: create the subnet, and for
the `public` type additionally enable public-IP auto-assignment. -/
def createSubnetStep (p : Ec2Provider) (vpcId cidr : String) (az : Option String)
    (subnetType : String) : VpcM SubnetRecord := do
  let sid ← callEc2 (Ec2Call.createSubnetCall vpcId cidr az) (p.createSubnetResp vpcId cidr az)
  if subnetType = "public" then
    let _ ← callEc2 (Ec2Call.modifySubnetAttributeCall sid) (p.modifySubnetAttributeResp sid)
  pure { subnet_id := sid, cidr_block := cidr, availability_zone := az, subnetType := subnetType }

/-- Embedding of `VPCManager._create_internet_gateway`. -/
def createInternetGatewayStep (p : Ec2Provider) (vpcId : String) : VpcM String := do
  let igwId ← callEc2 Ec2Call.createInternetGatewayCall p.createInternetGatewayResp
  let _ ← callEc2 (Ec2Call.attachInternetGatewayCall igwId vpcId)
    (p.attachInternetGatewayResp igwId vpcId)
  pure igwId

/-- Embedding of `VPCManager._configure_public_routing`: route table,
default route `0.0.0.0/0` via the gateway, association with the public
subnet. -/
def configurePublicRouting (p : Ec2Provider) (vpcId igwId subnetId : String) : VpcM String := do
  let rtId ← callEc2 (Ec2Call.createRouteTableCall vpcId) (p.createRouteTableResp vpcId)
  let _ ← callEc2 (Ec2Call.createRouteCall rtId "0.0.0.0/0" igwId)
    (p.createRouteResp rtId "0.0.0.0/0" igwId)
  let _ ← callEc2 (Ec2Call.associateRouteTableCall rtId subnetId)
    (p.associateRouteTableResp rtId subnetId)
  pure rtId

/-- Embedding of `VPCManager._is_main_route_table`: scans the association
records for one with the `main` flag set. -/
def isMainRouteTable (rt : RouteTableInfo) : Bool :=
  rt.associations.any (fun a => a.main)

/-- The `for subnet in vpc.subnets.all(): subnet.delete()` loop. -/
def deleteSubnetsLoop (p : Ec2Provider) : List String → VpcM Unit
  | [] => pure ()
  | s :: rest => do
    let _ ← callEc2 (Ec2Call.deleteSubnetCall s) (p.deleteSubnetResp s)
    deleteSubnetsLoop p rest

/-- The route-table deletion loop: every table that is not classified as
main is deleted. -/
def deleteRouteTablesLoop (p : Ec2Provider) : List RouteTableInfo → VpcM Unit
  | [] => pure ()
  | rt :: rest => do
    if !(isMainRouteTable rt) then
      let _ ← callEc2 (Ec2Call.deleteRouteTableCall rt.routeTableId)
        (p.deleteRouteTableResp rt.routeTableId)
    deleteRouteTablesLoop p rest

/-- The internet-gateway loop: detach each gateway from the VPC, then
delete it. -/
def deleteIgwsLoop (p : Ec2Provider) (vpcId : String) : List String → VpcM Unit
  | [] => pure ()
  | igw :: rest => do
    let _ ← callEc2 (Ec2Call.detachInternetGatewayCall igw vpcId)
      (p.detachInternetGatewayResp igw vpcId)
    let _ ← callEc2 (Ec2Call.deleteInternetGatewayCall igw) (p.deleteInternetGatewayResp igw)
    deleteIgwsLoop p vpcId rest

/-- Embedding of `VPCManager.delete_vpc`: subnets, then non-main route
tables, then gateways (detach + delete), then the VPC itself; any
`ClientError` propagates. -/
def delete_vpc (p : Ec2Provider) (vpcId : String) : VpcM DeletionRecord := do
  let subnets ← callEc2 (Ec2Call.describeSubnetsCall vpcId) (p.subnetsResp vpcId)
  deleteSubnetsLoop p subnets
  let rts ← callEc2 (Ec2Call.describeRouteTablesCall vpcId) (p.routeTablesResp vpcId)
  deleteRouteTablesLoop p rts
  let igws ← callEc2 (Ec2Call.describeInternetGatewaysCall vpcId) (p.internetGatewaysResp vpcId)
  deleteIgwsLoop p vpcId igws
  let _ ← callEc2 (Ec2Call.deleteVpcCall vpcId) (p.deleteVpcResp vpcId)
  pure { vpc_id := vpcId, status := "deleted",
         deleted_at := some (p.utcnowIso ++ "Z"), note := none }

/-- Embedding of `VPCManager._cleanup_failed_vpc`: run `delete_vpc` on
the partial VPC and swallow any exception it raises (logged only). -/
def cleanupFailedVpc (p : Ec2Provider) (vpcId : String) : VpcM Unit :=
  fun log =>
    match delete_vpc p vpcId log with
    | (_, l) => (Except.ok (), l)

/-- The body of `create_vpc` after `vpc_id` has been assigned: DNS
attributes, zone discovery (`azs[0] if azs else None`), both subnets,
gateway, public routing, and the assembled record. -/
def createVpcRest (p : Ec2Provider) (name cidr vpcId : String) : VpcM VpcDetails := do
  let _ ← callEc2 (Ec2Call.modifyVpcAttributeCall vpcId "EnableDnsHostnames")
    (p.modifyVpcAttributeResp vpcId "EnableDnsHostnames")
  let _ ← callEc2 (Ec2Call.modifyVpcAttributeCall vpcId "EnableDnsSupport")
    (p.modifyVpcAttributeResp vpcId "EnableDnsSupport")
  let azs ← callEc2 Ec2Call.describeAvailabilityZonesCall p.availabilityZonesResp
  let primaryAz := azs.head?
  let pubCidr ← calcSubnetCidrM cidr 1
  let publicSubnet ← createSubnetStep p vpcId pubCidr primaryAz "public"
  let privCidr ← calcSubnetCidrM cidr 2
  let privateSubnet ← createSubnetStep p vpcId privCidr primaryAz "private"
  let igwId ← createInternetGatewayStep p vpcId
  let rtId ← configurePublicRouting p vpcId igwId publicSubnet.subnet_id
  pure { vpc_id := vpcId, name := name, cidr_block := cidr, region := p.regionName,
         subnets := [publicSubnet, privateSubnet], internet_gateway_id := igwId,
         route_tables_public := rtId, status := "available",
         created_at := p.utcnowIso ++ "Z", created_by := "vpc-api" }

/-- Embedding of `VPCManager.create_vpc` with its exception handlers:
validation first (a `ValueError` here propagates, no provider call
made); then the VPC creation call (a `ClientError` here propagates with
no cleanup, since `vpc_id` is not yet in `locals()`); then the rest of
the sequence, where a `ClientError` triggers `_cleanup_failed_vpc` on
the partial VPC id before the original error is re-raised, and any other
exception is re-raised without cleanup. -/
def create_vpc (p : Ec2Provider) (name cidr : String) : VpcM VpcDetails :=
  fun log =>
    match validateCidr cidr with
    | Except.error m => (Except.error (PyError.valueError m), log)
    | Except.ok _ =>
      match callEc2 (Ec2Call.createVpcCall cidr) (p.createVpcResp cidr) log with
      | (Except.error e, l) => (Except.error e, l)
      | (Except.ok vpcId, l) =>
        match createVpcRest p name cidr vpcId l with
        | (Except.ok d, l2) => (Except.ok d, l2)
        | (Except.error (PyError.clientError c m), l2) =>
          (Except.error (PyError.clientError c m), (cleanupFailedVpc p vpcId l2).2)
        | (Except.error e, l2) => (Except.error e, l2)

/-- A DynamoDB item of the metadata table: partition key `vpc_id` plus
the remaining attributes as a key/value list. -/
structure DbItem where
  vpc_id : String
  attrs : List (String × String)
deriving DecidableEq

/-- DynamoDB `get_item` on the metadata table. -/
def dbFind (store : List DbItem) (k : String) : Option DbItem :=
  store.find? (fun it => it.vpc_id == k)

/-- Replace attribute `k` if present, else append it. -/
def setAttr (attrs : List (String × String)) (k v : String) : List (String × String) :=
  if attrs.any (fun a => a.1 == k) then
    attrs.map (fun a => if a.1 == k then (k, v) else a)
  else
    attrs ++ [(k, v)]

/-- DynamoDB `update_item` with `UpdateExpression='SET #status = :status'`
and no `ConditionExpression`: per DynamoDB semantics this is an upsert —
when no item carries the key, a fresh item holding only the key and the
written attribute is created; it never raises
`ConditionalCheckFailedException`. -/
def dbUpdateItemSetStatus (store : List DbItem) (k v : String) : List DbItem :=
  if (dbFind store k).isSome then
    store.map (fun it =>
      if it.vpc_id == k then { it with attrs := setAttr it.attrs "status" v } else it)
  else
    store ++ [{ vpc_id := k, attrs := [("status", v)] }]

/-- Embedding of `VPCMetadataStore.get_vpc`. -/
def get_vpc (store : List DbItem) (k : String) : Option DbItem :=
  dbFind store k

/-- Embedding of `VPCMetadataStore.update_vpc_status`: issues the
unconditional `update_item` above and returns `True`; the
`ConditionalCheckFailedException` handler that would return `False` is
unreachable because no condition expression is attached to the update. -/
def update_vpc_status (store : List DbItem) (k status : String) : Bool × List DbItem :=
  (true, dbUpdateItemSetStatus store k status)

/-- Embedding of `VPCMetadataStore.delete_vpc`: `get_item` first, return
`False` when absent, else `delete_item` and return `True`. -/
def metadataDeleteVpc (store : List DbItem) (k : String) : Bool × List DbItem :=
  match dbFind store k with
  | none => (false, store)
  | some _ => (true, store.filter (fun it => !(it.vpc_id == k)))

/-- Lower-case hexadecimal digit, the character class of the VPC-id
regular expression. -/
def isHexLower (c : Char) : Bool :=
  c.isDigit || (('a' ≤ c) && (c ≤ 'f'))

/-- The regular expression `^vpc-[a-f0-9]\x7b8,17\x7d$` of
`validate_vpc_id`. -/
def validVpcIdFormat (s : String) : Bool :=
  match s.data with
  | 'v' :: 'p' :: 'c' :: '-' :: rest =>
    rest.all isHexLower && decide (8 ≤ rest.length) && decide (rest.length ≤ 17)
  | _ => false

/-- Embedding of `common.validation.validate_vpc_id`. -/
def validate_vpc_id (vpcId : String) : Bool × Option String :=
  if vpcId.data = [] then (false, some "VPC ID is required")
  else if validVpcIdFormat vpcId then (true, none)
  else (false, some "Invalid VPC ID format (expected: vpc-xxxxxxxx)")

/-- The response body variants produced by the delete handler (headers
and the JSON `details` payload are not modelled). -/
inductive RespBody where
  | successDeletion (d : DeletionRecord) (message : String)
  | errorBody (message : String) (errorCode : String)
deriving DecidableEq

/-- An API Gateway response: status code plus body. -/
structure ApiResponse where
  statusCode : Nat
  body : RespBody
deriving DecidableEq

/-- Embedding of `common.responses.success_response` for a deletion
payload. -/
def success_response (d : DeletionRecord) (statusCode : Nat) (message : String) : ApiResponse :=
  { statusCode := statusCode, body := RespBody.successDeletion d message }

/-- Embedding of `common.responses.validation_error_response` (400,
`VALIDATION_ERROR`). -/
def validation_error_response (message : String) : ApiResponse :=
  { statusCode := 400, body := RespBody.errorBody message "VALIDATION_ERROR" }

/-- Embedding of `common.responses.not_found_response` (404,
`NOT_FOUND`). -/
def not_found_response (resource rid : String) : ApiResponse :=
  { statusCode := 404, body := RespBody.errorBody (resource ++ " not found: " ++ rid) "NOT_FOUND" }

/-- Embedding of `common.responses.internal_error_response` (500,
`INTERNAL_ERROR`). -/
def internal_error_response : ApiResponse :=
  { statusCode := 500, body := RespBody.errorBody "An internal server error occurred" "INTERNAL_ERROR" }

/-- The delete Lambda event: only `pathParameters.vpc_id` is read. -/
structure DeleteEvent where
  pathVpcId : Option String

/-- Embedding of `delete_vpc.handler`: path-parameter presence check,
id-format validation, metadata lookup (404 when absent), status update
to `deleting`, cloud deletion with the `InvalidVpcID.NotFound`
normalization, metadata removal, success envelope; a re-raised
`ClientError` reaches the outer handler, which maps
`DependencyViolation` to a 400 and everything else to a 500, leaving the
metadata store untouched from that point on.  Returns the response, the
final metadata store, and the trace of provider calls issued. -/
def deleteHandler (p : Ec2Provider) (store : List DbItem) (ev : DeleteEvent) :
    ApiResponse × List DbItem × List Ec2Call :=
  match ev.pathVpcId with
  | none => (validation_error_response "VPC ID is required", store, [])
  | some vpcId =>
    if vpcId.data = [] then
      (validation_error_response "VPC ID is required", store, [])
    else
      match validate_vpc_id vpcId with
      | (false, errMsg) => (validation_error_response (errMsg.getD ""), store, [])
      | (true, _) =>
        match get_vpc store vpcId with
        | none => (not_found_response "VPC" vpcId, store, [])
        | some _ =>
          let store1 := (update_vpc_status store vpcId "deleting").2
          match delete_vpc p vpcId [] with
          | (Except.ok dr, tr) =>
            let store2 := (metadataDeleteVpc store1 vpcId).2
            (success_response dr 200
              ("VPC '" ++ vpcId ++ "' and all associated resources deleted successfully"),
             store2, tr)
          | (Except.error (PyError.clientError code _m), tr) =>
            if code == "InvalidVpcID.NotFound" then
              let dr : DeletionRecord :=
                { vpc_id := vpcId, status := "deleted", deleted_at := none,
                  note := some "VPC was not found in AWS (may have been manually deleted)" }
              let store2 := (metadataDeleteVpc store1 vpcId).2
              (success_response dr 200
                ("VPC '" ++ vpcId ++ "' and all associated resources deleted successfully"),
               store2, tr)
            else if code == "DependencyViolation" then
              (validation_error_response
                ("Cannot delete VPC due to existing dependencies. " ++
                 "Please ensure all resources (EC2 instances, RDS, etc.) are deleted first."),
               store1, tr)
            else
              (internal_error_response, store1, tr)
          | (Except.error _, tr) => (internal_error_response, store1, tr)

/-- A cloud environment on which every call succeeds, for concrete
runs. -/
def demoProvider : Ec2Provider :=
  { createVpcResp := fun _ => Except.ok "vpc-aaaa1111"
    modifyVpcAttributeResp := fun _ _ => Except.ok ()
    availabilityZonesResp := Except.ok ["us-east-2a", "us-east-2b"]
    createSubnetResp := fun _ cidr _ => Except.ok ("subnet-" ++ cidr)
    modifySubnetAttributeResp := fun _ => Except.ok ()
    createInternetGatewayResp := Except.ok "igw-1"
    attachInternetGatewayResp := fun _ _ => Except.ok ()
    createRouteTableResp := fun _ => Except.ok "rtb-1"
    createRouteResp := fun _ _ _ => Except.ok ()
    associateRouteTableResp := fun _ _ => Except.ok ()
    subnetsResp := fun _ => Except.ok ["subnet-a", "subnet-b"]
    routeTablesResp := fun _ =>
      Except.ok [{ routeTableId := "rtb-main", associations := [{ main := true }] },
                 { routeTableId := "rtb-1", associations := [{ main := false }] }]
    internetGatewaysResp := fun _ => Except.ok ["igw-1"]
    deleteSubnetResp := fun _ => Except.ok ()
    deleteRouteTableResp := fun _ => Except.ok ()
    detachInternetGatewayResp := fun _ _ => Except.ok ()
    deleteInternetGatewayResp := fun _ => Except.ok ()
    deleteVpcResp := fun _ => Except.ok ()
    regionName := "us-east-2"
    utcnowIso := "2026-01-01T00:00:00" }

/-- Characterization of `_validate_cidr` acceptance: the block must
contain `/`, split at `/` into exactly two parts, have an address part
with exactly four dot-separated components (whose contents are never
examined), and a prefix parsing as an integer in `[16, 28]`. -/
theorem validateCidr_ok_iff (c : String) :
    validateCidr c = Except.ok () ↔
      (pyContains c '/' = true ∧
       ∃ ip pre p, pySplit c '/' = [ip, pre] ∧ (pySplit ip '.').length = 4 ∧
         pythonInt pre = some p ∧ 16 ≤ p ∧ p ≤ 28) := by
  constructor
  · intro h
    unfold validateCidr at h
    split at h
    · simp at h
    · rename_i hcont
      constructor
      · revert hcont
        cases pyContains c '/' <;> simp
      · split at h
        · rename_i ip pre hs
          split at h
          · simp at h
          · rename_i hlen
            split at h
            · simp at h
            · rename_i p hp
              split at h
              · simp at h
              · rename_i hrange
                push_neg at hrange
                exact ⟨ip, pre, p, hs, by omega, hp, hrange.1, hrange.2⟩
        · simp at h
  · rintro ⟨hc, ip, pre, p, hs, hlen, hp, h16, h28⟩
    have hr : ¬(p < 16 ∨ p > 28) := by omega
    simp [validateCidr, hc, hs, hlen, hp, hr]

/-- Claim C6 (amended): top-level range validation succeeds exactly when
the range contains `/`, splits at `/` into exactly two parts, has an
address part with exactly four dot-separated components — whose contents
are never examined — and a prefix parsing as an integer in `[16, 28]`;
octet values are not checked. -/
theorem claim_c6_validateTopLevelRange_acceptance (c : String) :
    validateCidr c = Except.ok () ↔
      (pyContains c '/' = true ∧
       ∃ ip pre p, pySplit c '/' = [ip, pre] ∧ (pySplit ip '.').length = 4 ∧
         pythonInt pre = some p ∧ 16 ≤ p ∧ p ≤ 28) :=
  validateCidr_ok_iff c

/-- Claim C6 counterexample: a range with an octet outside `[0, 255]` is
accepted by `_validate_cidr`, refuting the claim that any such range
fails validation with a malformed-address error. -/
theorem claim_c6_counterexample_octet_999 :
    validateCidr "10.0.0.999/16" = Except.ok () := rfl

/-- Claim C5 (amended): every range the validator rejects — missing `/`,
more than one `/`, an address part without exactly four dot-separated
components, a non-integer prefix, or a prefix outside `[16, 28]` — makes
`create_vpc` raise the validation `ValueError` with an empty provider
trace: no cloud resource is created and no rollback occurs.  Prefixes
`/15` and `/29` are rejected and `/28` is accepted. -/
theorem claim_c5_validation_fails_fast :
    (∀ (p : Ec2Provider) (name cidr m : String),
        validateCidr cidr = Except.error m →
        create_vpc p name cidr [] = (Except.error (PyError.valueError m), [])) ∧
    validateCidr "10.0.0.0/15" = Except.error "Invalid CIDR prefix: 15" ∧
    validateCidr "10.0.0.0/29" = Except.error "Invalid CIDR prefix: 29" ∧
    validateCidr "10.0.0.0/28" = Except.ok () := by
  refine ⟨?_, rfl, rfl, rfl⟩
  intro p name cidr m h
  simp [create_vpc, h]

/-- Witness for C5: a `/31` prefix is rejected with no provider call. -/
theorem claim_c5_witness :
    create_vpc demoProvider "w" "10.0.0.0/31" [] =
      (Except.error (PyError.valueError "Invalid CIDR prefix: 31"), []) :=
  claim_c5_validation_fails_fast.1 demoProvider "w" "10.0.0.0/31"
    "Invalid CIDR prefix: 31" rfl

/-- Claim C5 counterexample: a syntactically malformed range whose
address part still has four dot-separated components (`abc.0.0.0/16`)
passes `_validate_cidr`, so `create_vpc` does contact the provider — the
claim that any malformed range is rejected before a cloud call fails. -/
theorem claim_c5_counterexample_malformed_reaches_provider :
    Ec2Call.createVpcCall "abc.0.0.0/16" ∈
      (create_vpc demoProvider "x" "abc.0.0.0/16" []).2 ∧
    (∃ d, (create_vpc demoProvider "x" "abc.0.0.0/16" []).1 = Except.ok d) := by
  constructor
  · decide
  · exact ⟨_, rfl⟩

/-- Claim C9: at an id absent from the store, `update_vpc_status`
returns `True` and upserts a bare `(vpc_id, status)` item — it does not
return `False` as the claim (and the function's own dead
`ConditionalCheckFailedException` handler) intends, because the
`update_item` call carries no condition expression. -/
theorem claim_c9_updateStatus_upserts_on_absent :
    update_vpc_status [] "vpc-12345678" "deleting" =
      (true, [{ vpc_id := "vpc-12345678", attrs := [("status", "deleting")] }]) := rfl

/-- Full successful run of `create_vpc`: the assembled record and the
exact provider trace, for any environment whose calls all succeed with
the given values. -/
theorem create_vpc_success_run (p : Ec2Provider)
    (name cidr vid sid1 sid2 igw rtid cidr1 cidr2 : String) (zs : List String)
    (hval : validateCidr cidr = Except.ok ())
    (hc1 : calculateSubnetCidr cidr 1 = some cidr1)
    (hc2 : calculateSubnetCidr cidr 2 = some cidr2)
    (h1 : p.createVpcResp cidr = Except.ok vid)
    (h2 : ∀ a, p.modifyVpcAttributeResp vid a = Except.ok ())
    (h3 : p.availabilityZonesResp = Except.ok zs)
    (h4 : p.createSubnetResp vid cidr1 zs.head? = Except.ok sid1)
    (h5 : p.createSubnetResp vid cidr2 zs.head? = Except.ok sid2)
    (h6 : p.modifySubnetAttributeResp sid1 = Except.ok ())
    (h7 : p.createInternetGatewayResp = Except.ok igw)
    (h8 : p.attachInternetGatewayResp igw vid = Except.ok ())
    (h9 : p.createRouteTableResp vid = Except.ok rtid)
    (h10 : p.createRouteResp rtid "0.0.0.0/0" igw = Except.ok ())
    (h11 : p.associateRouteTableResp rtid sid1 = Except.ok ()) :
    create_vpc p name cidr [] =
      (Except.ok { vpc_id := vid, name := name, cidr_block := cidr, region := p.regionName,
                   subnets := [{ subnet_id := sid1, cidr_block := cidr1,
                                 availability_zone := zs.head?, subnetType := "public" },
                               { subnet_id := sid2, cidr_block := cidr2,
                                 availability_zone := zs.head?, subnetType := "private" }],
                   internet_gateway_id := igw, route_tables_public := rtid,
                   status := "available", created_at := p.utcnowIso ++ "Z",
                   created_by := "vpc-api" },
       [Ec2Call.createVpcCall cidr,
        Ec2Call.modifyVpcAttributeCall vid "EnableDnsHostnames",
        Ec2Call.modifyVpcAttributeCall vid "EnableDnsSupport",
        Ec2Call.describeAvailabilityZonesCall,
        Ec2Call.createSubnetCall vid cidr1 zs.head?,
        Ec2Call.modifySubnetAttributeCall sid1,
        Ec2Call.createSubnetCall vid cidr2 zs.head?,
        Ec2Call.createInternetGatewayCall,
        Ec2Call.attachInternetGatewayCall igw vid,
        Ec2Call.createRouteTableCall vid,
        Ec2Call.createRouteCall rtid "0.0.0.0/0" igw,
        Ec2Call.associateRouteTableCall rtid sid1]) := by
  simp [create_vpc, createVpcRest, createSubnetStep, createInternetGatewayStep,
    configurePublicRouting, callEc2, calcSubnetCidrM, hval, hc1, hc2,
    h1, h2, h3, h4, h5, h6, h7, h8, h9, h10, h11, Bind.bind, Pure.pure]

/-- Discriminator: is this a `create_route` call? -/
def isCreateRouteCall : Ec2Call → Bool
  | Ec2Call.createRouteCall _ _ _ => true
  | _ => false

/-- Discriminator: is this an `associate_route_table` call? -/
def isAssociateRouteTableCall : Ec2Call → Bool
  | Ec2Call.associateRouteTableCall _ _ => true
  | _ => false

/-- Discriminator: is this a `create_route_table` call? -/
def isCreateRouteTableCall : Ec2Call → Bool
  | Ec2Call.createRouteTableCall _ => true
  | _ => false

/-- Discriminator: is this a `modify_subnet_attribute` call (the
public-IP auto-assignment toggle)? -/
def isModifySubnetAttributeCall : Ec2Call → Bool
  | Ec2Call.modifySubnetAttributeCall _ => true
  | _ => false

/-- Discriminator: is this a `delete_route_table` call? -/
def isDeleteRouteTableCall : Ec2Call → Bool
  | Ec2Call.deleteRouteTableCall _ => true
  | _ => false

/-- Claim C2: on a successful run, `create("demo", "10.0.0.0/16")`
returns a record with status `available`, the UTC timestamp with `Z`
suffix, creator `vpc-api`, exactly the two subnets `10.0.1.0/24`
(public) and `10.0.2.0/24` (private); the single public-IP
auto-assignment call targets the public subnet, the gateway is attached
to the VPC, and exactly one route table is created, holding exactly one
route `0.0.0.0/0` via the created gateway and exactly one association,
with the public subnet. -/
theorem claim_c2_create_demo (p : Ec2Provider)
    (vid sid1 sid2 igw rtid : String) (zs : List String)
    (h1 : p.createVpcResp "10.0.0.0/16" = Except.ok vid)
    (h2 : ∀ a, p.modifyVpcAttributeResp vid a = Except.ok ())
    (h3 : p.availabilityZonesResp = Except.ok zs)
    (h4 : p.createSubnetResp vid "10.0.1.0/24" zs.head? = Except.ok sid1)
    (h5 : p.createSubnetResp vid "10.0.2.0/24" zs.head? = Except.ok sid2)
    (h6 : p.modifySubnetAttributeResp sid1 = Except.ok ())
    (h7 : p.createInternetGatewayResp = Except.ok igw)
    (h8 : p.attachInternetGatewayResp igw vid = Except.ok ())
    (h9 : p.createRouteTableResp vid = Except.ok rtid)
    (h10 : p.createRouteResp rtid "0.0.0.0/0" igw = Except.ok ())
    (h11 : p.associateRouteTableResp rtid sid1 = Except.ok ()) :
    ∃ d tr, create_vpc p "demo" "10.0.0.0/16" [] = (Except.ok d, tr) ∧
      d.status = "available" ∧
      d.created_at = p.utcnowIso ++ "Z" ∧
      d.created_by = "vpc-api" ∧
      d.subnets = [{ subnet_id := sid1, cidr_block := "10.0.1.0/24",
                     availability_zone := zs.head?, subnetType := "public" },
                   { subnet_id := sid2, cidr_block := "10.0.2.0/24",
                     availability_zone := zs.head?, subnetType := "private" }] ∧
      d.internet_gateway_id = igw ∧
      d.route_tables_public = rtid ∧
      tr.filter isModifySubnetAttributeCall = [Ec2Call.modifySubnetAttributeCall sid1] ∧
      Ec2Call.attachInternetGatewayCall igw vid ∈ tr ∧
      tr.filter isCreateRouteTableCall = [Ec2Call.createRouteTableCall vid] ∧
      tr.filter isCreateRouteCall = [Ec2Call.createRouteCall rtid "0.0.0.0/0" igw] ∧
      tr.filter isAssociateRouteTableCall = [Ec2Call.associateRouteTableCall rtid sid1] := by
  refine ⟨_, _,
    create_vpc_success_run p "demo" "10.0.0.0/16" vid sid1 sid2 igw rtid
      "10.0.1.0/24" "10.0.2.0/24" zs rfl rfl rfl h1 h2 h3 h4 h5 h6 h7 h8 h9 h10 h11,
    rfl, rfl, rfl, rfl, rfl, rfl, ?_, ?_, ?_, ?_, ?_⟩ <;>
  simp [isModifySubnetAttributeCall, isCreateRouteTableCall, isCreateRouteCall,
    isAssociateRouteTableCall]

/-- Witness for C2 at a concrete all-success environment. -/
theorem claim_c2_witness :
    ∃ d tr,
      create_vpc demoProvider "demo" "10.0.0.0/16" [] = (Except.ok d, tr) ∧
      d.status = "available" ∧
      d.created_at = demoProvider.utcnowIso ++ "Z" ∧
      d.created_by = "vpc-api" ∧
      d.subnets = [{ subnet_id := "subnet-10.0.1.0/24", cidr_block := "10.0.1.0/24",
                     availability_zone := some "us-east-2a", subnetType := "public" },
                   { subnet_id := "subnet-10.0.2.0/24", cidr_block := "10.0.2.0/24",
                     availability_zone := some "us-east-2a", subnetType := "private" }] ∧
      d.internet_gateway_id = "igw-1" ∧
      d.route_tables_public = "rtb-1" ∧
      tr.filter isModifySubnetAttributeCall =
        [Ec2Call.modifySubnetAttributeCall "subnet-10.0.1.0/24"] ∧
      Ec2Call.attachInternetGatewayCall "igw-1" "vpc-aaaa1111" ∈ tr ∧
      tr.filter isCreateRouteTableCall = [Ec2Call.createRouteTableCall "vpc-aaaa1111"] ∧
      tr.filter isCreateRouteCall = [Ec2Call.createRouteCall "rtb-1" "0.0.0.0/0" "igw-1"] ∧
      tr.filter isAssociateRouteTableCall =
        [Ec2Call.associateRouteTableCall "rtb-1" "subnet-10.0.1.0/24"] :=
  claim_c2_create_demo demoProvider "vpc-aaaa1111" "subnet-10.0.1.0/24"
    "subnet-10.0.2.0/24" "igw-1" "rtb-1" ["us-east-2a", "us-east-2b"]
    rfl (fun _ => rfl) rfl rfl rfl rfl rfl rfl rfl rfl rfl

/-- Claim C4 (amended): `create` never raises a `NoZoneAvailableError`;
the zone used for both subnets is `azs[0] if azs else None` — the first
zone the provider reports as available when one exists, and `None`
otherwise, with the run proceeding either way. -/
theorem claim_c4_zone_choice (p : Ec2Provider)
    (name cidr vid sid1 sid2 igw rtid cidr1 cidr2 : String) (zs : List String)
    (hval : validateCidr cidr = Except.ok ())
    (hc1 : calculateSubnetCidr cidr 1 = some cidr1)
    (hc2 : calculateSubnetCidr cidr 2 = some cidr2)
    (h1 : p.createVpcResp cidr = Except.ok vid)
    (h2 : ∀ a, p.modifyVpcAttributeResp vid a = Except.ok ())
    (h3 : p.availabilityZonesResp = Except.ok zs)
    (h4 : p.createSubnetResp vid cidr1 zs.head? = Except.ok sid1)
    (h5 : p.createSubnetResp vid cidr2 zs.head? = Except.ok sid2)
    (h6 : p.modifySubnetAttributeResp sid1 = Except.ok ())
    (h7 : p.createInternetGatewayResp = Except.ok igw)
    (h8 : p.attachInternetGatewayResp igw vid = Except.ok ())
    (h9 : p.createRouteTableResp vid = Except.ok rtid)
    (h10 : p.createRouteResp rtid "0.0.0.0/0" igw = Except.ok ())
    (h11 : p.associateRouteTableResp rtid sid1 = Except.ok ()) :
    ∃ d tr, create_vpc p name cidr [] = (Except.ok d, tr) ∧
      d.subnets.map (fun s => s.availability_zone) = [zs.head?, zs.head?] := by
  refine ⟨_, _,
    create_vpc_success_run p name cidr vid sid1 sid2 igw rtid cidr1 cidr2 zs
      hval hc1 hc2 h1 h2 h3 h4 h5 h6 h7 h8 h9 h10 h11, rfl⟩

/-- Witness for C4 with a provider reporting two available zones: the
first one is used for both subnets. -/
theorem claim_c4_witness :
    ∃ d tr, create_vpc demoProvider "demo" "10.0.0.0/16" [] = (Except.ok d, tr) ∧
      d.subnets.map (fun s => s.availability_zone) =
        [some "us-east-2a", some "us-east-2a"] :=
  claim_c4_zone_choice demoProvider "demo" "10.0.0.0/16" "vpc-aaaa1111"
    "subnet-10.0.1.0/24" "subnet-10.0.2.0/24" "igw-1" "rtb-1"
    "10.0.1.0/24" "10.0.2.0/24" ["us-east-2a", "us-east-2b"]
    rfl rfl rfl rfl (fun _ => rfl) rfl rfl rfl rfl rfl rfl rfl rfl rfl

/-- A cloud environment reporting zero available zones (all other calls
succeed). -/
def noZoneProvider : Ec2Provider :=
  { demoProvider with availabilityZonesResp := Except.ok [] }

/-- Claim C4 counterexample: with zero available zones, `create_vpc`
does not fail with any error — no `NoZoneAvailableError` exists in the
code — but completes, passing `None` as the availability zone of both
subnets. -/
theorem claim_c4_counterexample_no_zone :
    (create_vpc noZoneProvider "demo" "10.0.0.0/16" []).1 =
      Except.ok { vpc_id := "vpc-aaaa1111", name := "demo",
                  cidr_block := "10.0.0.0/16", region := "us-east-2",
                  subnets := [{ subnet_id := "subnet-10.0.1.0/24",
                                cidr_block := "10.0.1.0/24",
                                availability_zone := none, subnetType := "public" },
                              { subnet_id := "subnet-10.0.2.0/24",
                                cidr_block := "10.0.2.0/24",
                                availability_zone := none, subnetType := "private" }],
                  internet_gateway_id := "igw-1", route_tables_public := "rtb-1",
                  status := "available", created_at := "2026-01-01T00:00:00Z",
                  created_by := "vpc-api" } := rfl

/-- Evaluation rule for the `VpcM` bind. -/
theorem vpcM_bind_apply {α β : Type} (m : VpcM α) (f : α → VpcM β) (log : List Ec2Call) :
    (m >>= f) log =
      match m log with
      | (Except.ok a, l) => f a l
      | (Except.error e, l) => (Except.error e, l) := rfl

/-- Computations that can only raise `ClientError` — never `ValueError`
or `IndexError`. -/
def ClientOnly {α : Type} (m : VpcM α) : Prop :=
  ∀ log e l, m log = (Except.error e, l) → ∃ c s, e = PyError.clientError c s

theorem clientOnly_pure {α : Type} (a : α) : ClientOnly (pure a : VpcM α) := by
  intro log e l h
  simp [Pure.pure] at h

theorem clientOnly_callEc2 {α : Type} (c : Ec2Call) (r : Except AwsErr α) :
    ClientOnly (callEc2 c r) := by
  intro log e l h
  unfold callEc2 at h
  cases r with
  | ok a => simp at h
  | error err =>
    simp at h
    exact ⟨err.code, err.msg, h.1.symm⟩

theorem clientOnly_bind {α β : Type} {m : VpcM α} {f : α → VpcM β}
    (hm : ClientOnly m) (hf : ∀ a, ClientOnly (f a)) : ClientOnly (m >>= f) := by
  intro log e l h
  rw [vpcM_bind_apply] at h
  rcases hml : m log with ⟨res, l1⟩
  rw [hml] at h
  cases res with
  | ok a => exact hf a l1 e l h
  | error e1 =>
    simp at h
    exact h.1 ▸ hm log e1 l1 hml

theorem clientOnly_ite {α : Type} {c : Prop} [Decidable c] {x y : VpcM α}
    (hx : ClientOnly x) (hy : ClientOnly y) : ClientOnly (if c then x else y) := by
  split <;> assumption

theorem clientOnly_calcSubnetCidrM {cidr : String} {i : Int}
    (h : ∃ s, calculateSubnetCidr cidr i = some s) :
    ClientOnly (calcSubnetCidrM cidr i) := by
  intro log e l hr
  obtain ⟨s, hs⟩ := h
  simp [calcSubnetCidrM, hs] at hr

/-- When validation passed, the subnet-range derivation cannot raise:
the address part is guaranteed to have four components. -/
theorem calculateSubnetCidr_ok_of_valid {cidr : String}
    (h : validateCidr cidr = Except.ok ()) (i : Int) :
    ∃ s, calculateSubnetCidr cidr i = some s := by
  obtain ⟨-, ip, pre, p, hs, hlen, -⟩ := (validateCidr_ok_iff cidr).mp h
  refine ⟨joinDot ((pySplit ip '.').set 2 (toString i)) ++ "/24", ?_⟩
  simp [calculateSubnetCidr, hs, hlen]

theorem clientOnly_createSubnetStep (p : Ec2Provider) (vpcId cidr : String)
    (az : Option String) (t : String) : ClientOnly (createSubnetStep p vpcId cidr az t) := by
  unfold createSubnetStep
  refine clientOnly_bind (clientOnly_callEc2 _ _) (fun sid => ?_)
  dsimp only
  split
  · exact clientOnly_bind (clientOnly_callEc2 _ _) fun _ =>
      clientOnly_bind (clientOnly_pure _) fun _ => clientOnly_pure _
  · exact clientOnly_bind (clientOnly_pure _) fun _ => clientOnly_pure _

theorem clientOnly_createInternetGatewayStep (p : Ec2Provider) (vpcId : String) :
    ClientOnly (createInternetGatewayStep p vpcId) := by
  unfold createInternetGatewayStep
  exact clientOnly_bind (clientOnly_callEc2 _ _) fun igw =>
    clientOnly_bind (clientOnly_callEc2 _ _) fun _ => clientOnly_pure _

theorem clientOnly_configurePublicRouting (p : Ec2Provider) (vpcId igwId subnetId : String) :
    ClientOnly (configurePublicRouting p vpcId igwId subnetId) := by
  unfold configurePublicRouting
  exact clientOnly_bind (clientOnly_callEc2 _ _) fun rt =>
    clientOnly_bind (clientOnly_callEc2 _ _) fun _ =>
      clientOnly_bind (clientOnly_callEc2 _ _) fun _ => clientOnly_pure _

/-- Given a validated CIDR, every exception raised inside the
post-creation sequence is a provider `ClientError`. -/
theorem clientOnly_createVpcRest (p : Ec2Provider) (name cidr vpcId : String)
    (hval : validateCidr cidr = Except.ok ()) :
    ClientOnly (createVpcRest p name cidr vpcId) := by
  unfold createVpcRest
  refine clientOnly_bind (clientOnly_callEc2 _ _) (fun _ => ?_)
  refine clientOnly_bind (clientOnly_callEc2 _ _) (fun _ => ?_)
  refine clientOnly_bind (clientOnly_callEc2 _ _) (fun azs => ?_)
  refine clientOnly_bind (clientOnly_calcSubnetCidrM
    (calculateSubnetCidr_ok_of_valid hval 1)) (fun c1 => ?_)
  refine clientOnly_bind (clientOnly_createSubnetStep _ _ _ _ _) (fun pub => ?_)
  refine clientOnly_bind (clientOnly_calcSubnetCidrM
    (calculateSubnetCidr_ok_of_valid hval 2)) (fun c2 => ?_)
  refine clientOnly_bind (clientOnly_createSubnetStep _ _ _ _ _) (fun priv => ?_)
  refine clientOnly_bind (clientOnly_createInternetGatewayStep _ _) (fun igw => ?_)
  exact clientOnly_bind (clientOnly_configurePublicRouting _ _ _ _) fun rt => clientOnly_pure _

/-- `_cleanup_failed_vpc` runs `delete_vpc` and swallows its outcome. -/
theorem cleanupFailedVpc_eq (p : Ec2Provider) (v : String) (l : List Ec2Call) :
    cleanupFailedVpc p v l = (Except.ok (), (delete_vpc p v l).2) := rfl

/-- Claim C1: whenever `create` fails after the VPC container was
created (the creation call returned `vpcId` and the remaining sequence
raised), the failure is a provider `ClientError`, and the overall run
re-raises exactly that original error while extending the trace with a
full `delete_vpc` run on the partial VPC id — the rollback is invoked,
and its own outcome (success or failure) never replaces the original
error. -/
theorem claim_c1_rollback (p : Ec2Provider) (name cidr vid : String)
    (e : PyError) (l2 : List Ec2Call)
    (hval : validateCidr cidr = Except.ok ())
    (hvpc : p.createVpcResp cidr = Except.ok vid)
    (hrest : createVpcRest p name cidr vid [Ec2Call.createVpcCall cidr] =
      (Except.error e, l2)) :
    (∃ code msg, e = PyError.clientError code msg) ∧
    create_vpc p name cidr [] = (Except.error e, (delete_vpc p vid l2).2) := by
  have hco : ∃ code msg, e = PyError.clientError code msg :=
    clientOnly_createVpcRest p name cidr vid hval _ e l2 hrest
  refine ⟨hco, ?_⟩
  obtain ⟨code, msg, rfl⟩ := hco
  simp [create_vpc, callEc2, hval, hvpc, hrest, cleanupFailedVpc_eq]

/-- A cloud environment failing exactly at the route-table creation
step. -/
def routeTableFailProvider : Ec2Provider :=
  { demoProvider with
      createRouteTableResp := fun _ =>
        Except.error { code := "RouteTableLimitExceeded", msg := "limit" } }

/-- Witness for C1: a route-table-creation failure is re-raised after a
rollback `delete_vpc` run on the partial VPC. -/
theorem claim_c1_witness :
    (∃ code msg,
      (PyError.clientError "RouteTableLimitExceeded" "limit" : PyError) =
        PyError.clientError code msg) ∧
    create_vpc routeTableFailProvider "demo" "10.0.0.0/16" [] =
      (Except.error (PyError.clientError "RouteTableLimitExceeded" "limit"),
       (delete_vpc routeTableFailProvider "vpc-aaaa1111"
         [Ec2Call.createVpcCall "10.0.0.0/16",
          Ec2Call.modifyVpcAttributeCall "vpc-aaaa1111" "EnableDnsHostnames",
          Ec2Call.modifyVpcAttributeCall "vpc-aaaa1111" "EnableDnsSupport",
          Ec2Call.describeAvailabilityZonesCall,
          Ec2Call.createSubnetCall "vpc-aaaa1111" "10.0.1.0/24" (some "us-east-2a"),
          Ec2Call.modifySubnetAttributeCall "subnet-10.0.1.0/24",
          Ec2Call.createSubnetCall "vpc-aaaa1111" "10.0.2.0/24" (some "us-east-2a"),
          Ec2Call.createInternetGatewayCall,
          Ec2Call.attachInternetGatewayCall "igw-1" "vpc-aaaa1111",
          Ec2Call.createRouteTableCall "vpc-aaaa1111"]).2) :=
  claim_c1_rollback routeTableFailProvider "demo" "10.0.0.0/16" "vpc-aaaa1111"
    (PyError.clientError "RouteTableLimitExceeded" "limit") _ rfl rfl rfl

/-- The detach/delete call pair issued for each attached gateway. -/
def igwCalls (vpcId : String) : List String → List Ec2Call
  | [] => []
  | g :: rest =>
    Ec2Call.detachInternetGatewayCall g vpcId ::
      Ec2Call.deleteInternetGatewayCall g :: igwCalls vpcId rest

theorem deleteSubnetsLoop_run (p : Ec2Provider) (subs : List String)
    (h : ∀ s ∈ subs, p.deleteSubnetResp s = Except.ok ()) (log : List Ec2Call) :
    deleteSubnetsLoop p subs log =
      (Except.ok (), log ++ subs.map Ec2Call.deleteSubnetCall) := by
  induction subs generalizing log with
  | nil => simp [deleteSubnetsLoop, Pure.pure]
  | cons s rest ih =>
    have hs := h s (by simp)
    have hr : ∀ x ∈ rest, p.deleteSubnetResp x = Except.ok () :=
      fun x hx => h x (by simp [hx])
    simp [deleteSubnetsLoop, vpcM_bind_apply, callEc2, hs, ih hr, Pure.pure]

theorem deleteRouteTablesLoop_run (p : Ec2Provider) (rts : List RouteTableInfo)
    (h : ∀ rid, p.deleteRouteTableResp rid = Except.ok ()) (log : List Ec2Call) :
    deleteRouteTablesLoop p rts log =
      (Except.ok (), log ++ (rts.filter (fun rt => !isMainRouteTable rt)).map
        (fun rt => Ec2Call.deleteRouteTableCall rt.routeTableId)) := by
  induction rts generalizing log with
  | nil => simp [deleteRouteTablesLoop, Pure.pure]
  | cons rt rest ih =>
    by_cases hm : isMainRouteTable rt = true
    · simp [deleteRouteTablesLoop, vpcM_bind_apply, callEc2, hm, ih, Pure.pure]
    · simp [deleteRouteTablesLoop, vpcM_bind_apply, callEc2, hm, h rt.routeTableId,
        ih, Pure.pure]

theorem deleteIgwsLoop_run (p : Ec2Provider) (vid : String) (igws : List String)
    (h1 : ∀ g, p.detachInternetGatewayResp g vid = Except.ok ())
    (h2 : ∀ g, p.deleteInternetGatewayResp g = Except.ok ()) (log : List Ec2Call) :
    deleteIgwsLoop p vid igws log = (Except.ok (), log ++ igwCalls vid igws) := by
  induction igws generalizing log with
  | nil => simp [deleteIgwsLoop, igwCalls, Pure.pure]
  | cons g rest ih =>
    simp [deleteIgwsLoop, igwCalls, vpcM_bind_apply, callEc2, h1 g, h2 g, ih, Pure.pure]

/-- Full successful run of `delete_vpc`: the deletion record and the
exact provider trace. -/
theorem delete_vpc_success_run (p : Ec2Provider) (vid : String)
    (subs : List String) (rts : List RouteTableInfo) (igws : List String)
    (h1 : p.subnetsResp vid = Except.ok subs)
    (h2 : ∀ s ∈ subs, p.deleteSubnetResp s = Except.ok ())
    (h3 : p.routeTablesResp vid = Except.ok rts)
    (h4 : ∀ rid, p.deleteRouteTableResp rid = Except.ok ())
    (h5 : p.internetGatewaysResp vid = Except.ok igws)
    (h6 : ∀ g, p.detachInternetGatewayResp g vid = Except.ok ())
    (h7 : ∀ g, p.deleteInternetGatewayResp g = Except.ok ())
    (h8 : p.deleteVpcResp vid = Except.ok ())
    (log : List Ec2Call) :
    delete_vpc p vid log =
      (Except.ok { vpc_id := vid, status := "deleted",
                   deleted_at := some (p.utcnowIso ++ "Z"), note := none },
       log ++ Ec2Call.describeSubnetsCall vid :: (subs.map Ec2Call.deleteSubnetCall
           ++ Ec2Call.describeRouteTablesCall vid ::
              ((rts.filter (fun rt => !isMainRouteTable rt)).map
                (fun rt => Ec2Call.deleteRouteTableCall rt.routeTableId)
           ++ Ec2Call.describeInternetGatewaysCall vid :: (igwCalls vid igws
           ++ [Ec2Call.deleteVpcCall vid])))) := by
  simp [delete_vpc, vpcM_bind_apply, callEc2, h1, h3, h5, h8,
    deleteSubnetsLoop_run p subs h2, deleteRouteTablesLoop_run p rts h4,
    deleteIgwsLoop_run p vid igws h6 h7, Pure.pure]

theorem igwCalls_filter_deleteRt (vid : String) (igws : List String) :
    (igwCalls vid igws).filter isDeleteRouteTableCall = [] := by
  induction igws with
  | nil => rfl
  | cons g rest ih => simp [igwCalls, isDeleteRouteTableCall, ih]

/-- Claim C8: on a successful delete run, the `delete_route_table` calls
issued are exactly one call per enumerated table that is not classified
as main, in order; a table is main exactly when some association record
carries the `main` flag, so a table with an empty association list is
treated as non-main (and is therefore deleted). -/
theorem claim_c8_route_tables (p : Ec2Provider) (vid : String)
    (subs : List String) (rts : List RouteTableInfo) (igws : List String)
    (h1 : p.subnetsResp vid = Except.ok subs)
    (h2 : ∀ s ∈ subs, p.deleteSubnetResp s = Except.ok ())
    (h3 : p.routeTablesResp vid = Except.ok rts)
    (h4 : ∀ rid, p.deleteRouteTableResp rid = Except.ok ())
    (h5 : p.internetGatewaysResp vid = Except.ok igws)
    (h6 : ∀ g, p.detachInternetGatewayResp g vid = Except.ok ())
    (h7 : ∀ g, p.deleteInternetGatewayResp g = Except.ok ())
    (h8 : p.deleteVpcResp vid = Except.ok ()) :
    (delete_vpc p vid []).2.filter isDeleteRouteTableCall =
      (rts.filter (fun rt => !isMainRouteTable rt)).map
        (fun rt => Ec2Call.deleteRouteTableCall rt.routeTableId) ∧
    (∀ rt : RouteTableInfo, isMainRouteTable rt = rt.associations.any (fun a => a.main)) ∧
    (∀ rid, isMainRouteTable { routeTableId := rid, associations := [] } = false) := by
  refine ⟨?_, fun rt => rfl, fun rid => rfl⟩
  rw [delete_vpc_success_run p vid subs rts igws h1 h2 h3 h4 h5 h6 h7 h8 []]
  simp [List.filter_map, isDeleteRouteTableCall, igwCalls_filter_deleteRt,
    Function.comp]

/-- An environment whose VPC has one main route table, one table with an
empty association list, and one explicitly non-main table. -/
def mixedRtProvider : Ec2Provider :=
  { demoProvider with
      routeTablesResp := fun _ =>
        Except.ok [{ routeTableId := "rtb-main", associations := [{ main := true }] },
                   { routeTableId := "rtb-noassoc", associations := [] },
                   { routeTableId := "rtb-custom", associations := [{ main := false }] }] }

/-- Witness for C8: the main table is skipped; the association-free and
non-main tables are deleted. -/
theorem claim_c8_witness :
    (delete_vpc mixedRtProvider "vpc-aaaa1111" []).2.filter isDeleteRouteTableCall =
      [Ec2Call.deleteRouteTableCall "rtb-noassoc",
       Ec2Call.deleteRouteTableCall "rtb-custom"] ∧
    isMainRouteTable { routeTableId := "rtb-noassoc", associations := [] } = false := by
  have h := claim_c8_route_tables mixedRtProvider "vpc-aaaa1111"
    ["subnet-a", "subnet-b"]
    [{ routeTableId := "rtb-main", associations := [{ main := true }] },
     { routeTableId := "rtb-noassoc", associations := [] },
     { routeTableId := "rtb-custom", associations := [{ main := false }] }]
    ["igw-1"] rfl (fun s _ => rfl) rfl (fun _ => rfl) rfl (fun _ => rfl)
    (fun _ => rfl) rfl
  exact ⟨h.1.trans (by decide), h.2.2 "rtb-noassoc"⟩

/-- A valid-format VPC id is nonempty. -/
theorem validVpcIdFormat_ne_nil {vid : String} (hid : validVpcIdFormat vid = true) :
    vid.data ≠ [] := by
  intro h
  unfold validVpcIdFormat at hid
  rw [h] at hid
  simp at hid

/-- Claim C7: when a metadata record exists and the provider reports the
network as gone (`InvalidVpcID.NotFound` from the delete run), the
handler returns a 200 success envelope carrying a deletion record with
status `deleted` and the explanatory note, rather than an error; the
metadata record is still removed. -/
theorem claim_c7_delete_idempotent (p : Ec2Provider) (store : List DbItem)
    (vid msgE : String) (it : DbItem) (tr : List Ec2Call)
    (hid : validVpcIdFormat vid = true)
    (hget : dbFind store vid = some it)
    (hdel : delete_vpc p vid [] =
      (Except.error (PyError.clientError "InvalidVpcID.NotFound" msgE), tr)) :
    deleteHandler p store { pathVpcId := some vid } =
      ({ statusCode := 200,
         body := RespBody.successDeletion
           { vpc_id := vid, status := "deleted", deleted_at := none,
             note := some "VPC was not found in AWS (may have been manually deleted)" }
           ("VPC '" ++ vid ++ "' and all associated resources deleted successfully") },
       (metadataDeleteVpc (dbUpdateItemSetStatus store vid "deleting") vid).2, tr) := by
  have hne := validVpcIdFormat_ne_nil hid
  simp [deleteHandler, hne, validate_vpc_id, hid, get_vpc, hget,
    update_vpc_status, hdel, success_response]

/-- An environment where the VPC container is already gone: the
dependent-resource enumerations come back empty and the final
`delete_vpc` call raises `InvalidVpcID.NotFound`. -/
def goneVpcProvider : Ec2Provider :=
  { demoProvider with
      subnetsResp := fun _ => Except.ok []
      routeTablesResp := fun _ => Except.ok []
      internetGatewaysResp := fun _ => Except.ok []
      deleteVpcResp := fun _ =>
        Except.error { code := "InvalidVpcID.NotFound", msg := "gone" } }

/-- Witness for C7 at a concrete store and environment. -/
theorem claim_c7_witness :
    deleteHandler goneVpcProvider
        [{ vpc_id := "vpc-abcd1234", attrs := [("status", "available")] }]
        { pathVpcId := some "vpc-abcd1234" } =
      ({ statusCode := 200,
         body := RespBody.successDeletion
           { vpc_id := "vpc-abcd1234", status := "deleted", deleted_at := none,
             note := some "VPC was not found in AWS (may have been manually deleted)" }
           ("VPC '" ++ "vpc-abcd1234" ++ "' and all associated resources deleted successfully") },
       (metadataDeleteVpc
         (dbUpdateItemSetStatus
           [{ vpc_id := "vpc-abcd1234", attrs := [("status", "available")] }]
           "vpc-abcd1234" "deleting") "vpc-abcd1234").2,
       [Ec2Call.describeSubnetsCall "vpc-abcd1234",
        Ec2Call.describeRouteTablesCall "vpc-abcd1234",
        Ec2Call.describeInternetGatewaysCall "vpc-abcd1234",
        Ec2Call.deleteVpcCall "vpc-abcd1234"]) :=
  claim_c7_delete_idempotent goneVpcProvider
    [{ vpc_id := "vpc-abcd1234", attrs := [("status", "available")] }]
    "vpc-abcd1234" "gone"
    { vpc_id := "vpc-abcd1234", attrs := [("status", "available")] }
    _ rfl rfl rfl

/-- Attribute lookup in a DynamoDB item. -/
def lookupAttr (attrs : List (String × String)) (k : String) : Option String :=
  (attrs.find? (fun a => a.1 == k)).map (fun a => a.2)

theorem find?_map_replace (attrs : List (String × String)) (k v : String)
    (h : attrs.any (fun a => a.1 == k) = true) :
    (attrs.map (fun a => if a.1 == k then (k, v) else a)).find?
        (fun a => a.1 == k) = some (k, v) := by
  induction attrs with
  | nil => simp at h
  | cons a rest ih =>
    cases hk : (a.1 == k) with
    | true =>
      simp only [List.map_cons, hk, if_true]
      exact List.find?_cons_of_pos _ (by simp)
    | false =>
      simp only [List.any_cons, hk, Bool.false_or] at h
      simp only [List.map_cons, if_neg (by simp [hk] : ¬(a.1 == k) = true)]
      rw [List.find?_cons_of_neg _ (by simp [hk])]
      exact ih h

theorem find?_append_absent (attrs : List (String × String)) (k v : String)
    (h : attrs.any (fun a => a.1 == k) = false) :
    (attrs ++ [(k, v)]).find? (fun a => a.1 == k) = some (k, v) := by
  induction attrs with
  | nil =>
    rw [List.nil_append]
    exact List.find?_cons_of_pos _ (by simp)
  | cons a rest ih =>
    simp only [List.any_cons, Bool.or_eq_false_iff] at h
    rw [List.cons_append, List.find?_cons_of_neg _ (by simp [h.1])]
    exact ih h.2

/-- After `setAttr`, the written attribute reads back. -/
theorem lookupAttr_setAttr (attrs : List (String × String)) (k v : String) :
    lookupAttr (setAttr attrs k v) k = some v := by
  unfold setAttr
  split
  · rename_i hany
    unfold lookupAttr
    rw [find?_map_replace attrs k v hany]
    rfl
  · rename_i hany
    unfold lookupAttr
    have hfalse : attrs.any (fun a => a.1 == k) = false := by
      cases hb : attrs.any (fun a => a.1 == k)
      · rfl
      · exact absurd hb hany
    rw [find?_append_absent attrs k v hfalse]
    rfl

theorem find?_update_aux (store : List DbItem) (k v : String) (it : DbItem)
    (h : store.find? (fun x => x.vpc_id == k) = some it) :
    (store.map (fun x =>
        if x.vpc_id == k then { x with attrs := setAttr x.attrs "status" v } else x)).find?
        (fun x => x.vpc_id == k) =
      some { it with attrs := setAttr it.attrs "status" v } := by
  induction store with
  | nil => simp at h
  | cons a rest ih =>
    cases hk : (a.vpc_id == k) with
    | true =>
      rw [List.find?_cons_of_pos _ (by simp [hk])] at h
      obtain rfl : a = it := by injection h
      simp only [List.map_cons, hk, if_true]
      exact List.find?_cons_of_pos _ (by simp [hk])
    | false =>
      rw [List.find?_cons_of_neg _ (by simp [hk])] at h
      simp only [List.map_cons, if_neg (by simp [hk] : ¬(a.vpc_id == k) = true)]
      rw [List.find?_cons_of_neg _ (by simp [hk])]
      exact ih h

/-- The status update rewrites exactly the matched item's `status`
attribute. -/
theorem dbFind_update (store : List DbItem) (k v : String) (it : DbItem)
    (h : dbFind store k = some it) :
    dbFind (dbUpdateItemSetStatus store k v) k =
      some { it with attrs := setAttr it.attrs "status" v } := by
  unfold dbUpdateItemSetStatus
  rw [if_pos (by rw [h]; rfl)]
  unfold dbFind at h ⊢
  exact find?_update_aux store k v it h

/-- Claim C10: when a metadata record exists and the cloud delete run
fails with a provider error other than `InvalidVpcID.NotFound`, the
handler propagates an error response (400 for `DependencyViolation`,
500 otherwise) and the metadata store keeps the record — with exactly
its `status` attribute rewritten to `deleting`, written before the
cloud deletion was attempted; the record is neither removed nor
restored. -/
theorem claim_c10_failed_delete_leaves_deleting (p : Ec2Provider)
    (store : List DbItem) (vid code msgE : String) (it : DbItem) (tr : List Ec2Call)
    (hid : validVpcIdFormat vid = true)
    (hget : dbFind store vid = some it)
    (hdel : delete_vpc p vid [] = (Except.error (PyError.clientError code msgE), tr))
    (hnf : code ≠ "InvalidVpcID.NotFound") :
    deleteHandler p store { pathVpcId := some vid } =
      ((if code = "DependencyViolation"
          then validation_error_response
            ("Cannot delete VPC due to existing dependencies. " ++
             "Please ensure all resources (EC2 instances, RDS, etc.) are deleted first.")
          else internal_error_response),
       dbUpdateItemSetStatus store vid "deleting", tr) ∧
    (deleteHandler p store { pathVpcId := some vid }).1.statusCode ≠ 200 ∧
    dbFind (dbUpdateItemSetStatus store vid "deleting") vid =
      some { it with attrs := setAttr it.attrs "status" "deleting" } ∧
    lookupAttr (setAttr it.attrs "status" "deleting") "status" = some "deleting" := by
  have hne := validVpcIdFormat_ne_nil hid
  have hmain : deleteHandler p store { pathVpcId := some vid } =
      ((if code = "DependencyViolation"
          then validation_error_response
            ("Cannot delete VPC due to existing dependencies. " ++
             "Please ensure all resources (EC2 instances, RDS, etc.) are deleted first.")
          else internal_error_response),
       dbUpdateItemSetStatus store vid "deleting", tr) := by
    simp only [deleteHandler, hne, validate_vpc_id, hid, get_vpc, hget,
      update_vpc_status, hdel, hnf, if_neg, if_false, beq_iff_eq, ite_false,
      ite_true, if_pos]
    split <;> simp_all
  refine ⟨hmain, ?_, dbFind_update store vid "deleting" it hget,
    lookupAttr_setAttr it.attrs "status" "deleting"⟩
  rw [hmain]
  split
  · simp [validation_error_response]
  · simp [internal_error_response]

/-- An environment whose VPC delete is blocked by live dependents. -/
def dependencyViolationProvider : Ec2Provider :=
  { demoProvider with
      deleteVpcResp := fun _ =>
        Except.error { code := "DependencyViolation", msg := "has dependencies" } }

/-- Witness for C10: a `DependencyViolation` on the cloud delete yields
a 400 and leaves the metadata record with status `deleting`. -/
theorem claim_c10_witness :
    deleteHandler dependencyViolationProvider
        [{ vpc_id := "vpc-abcd1234", attrs := [("status", "available")] }]
        { pathVpcId := some "vpc-abcd1234" } =
      ((if "DependencyViolation" = "DependencyViolation"
          then validation_error_response
            ("Cannot delete VPC due to existing dependencies. " ++
             "Please ensure all resources (EC2 instances, RDS, etc.) are deleted first.")
          else internal_error_response),
       dbUpdateItemSetStatus
         [{ vpc_id := "vpc-abcd1234", attrs := [("status", "available")] }]
         "vpc-abcd1234" "deleting",
       (delete_vpc dependencyViolationProvider "vpc-abcd1234" []).2) ∧
    (deleteHandler dependencyViolationProvider
        [{ vpc_id := "vpc-abcd1234", attrs := [("status", "available")] }]
        { pathVpcId := some "vpc-abcd1234" }).1.statusCode ≠ 200 ∧
    dbFind (dbUpdateItemSetStatus
        [{ vpc_id := "vpc-abcd1234", attrs := [("status", "available")] }]
        "vpc-abcd1234" "deleting") "vpc-abcd1234" =
      some { vpc_id := "vpc-abcd1234",
             attrs := setAttr [("status", "available")] "status" "deleting" } ∧
    lookupAttr (setAttr [("status", "available")] "status" "deleting") "status" =
      some "deleting" :=
  claim_c10_failed_delete_leaves_deleting dependencyViolationProvider
    [{ vpc_id := "vpc-abcd1234", attrs := [("status", "available")] }]
    "vpc-abcd1234" "DependencyViolation" "has dependencies"
    { vpc_id := "vpc-abcd1234", attrs := [("status", "available")] }
    _ rfl rfl rfl (by decide)

theorem splitOnChar_not_mem (sep : Char) (l : List Char) (h : sep ∉ l) :
    splitOnChar sep l = [l] := by
  induction l with
  | nil => rfl
  | cons c rest ih =>
    rw [List.mem_cons, not_or] at h
    have hrest := ih h.2
    simp only [splitOnChar, hrest]
    rw [if_neg (fun hc => h.1 hc.symm)]

theorem splitOnChar_append_cons (sep : Char) (l m : List Char) (h : sep ∉ l) :
    splitOnChar sep (l ++ sep :: m) = l :: splitOnChar sep m := by
  induction l with
  | nil =>
    rw [List.nil_append]
    simp [splitOnChar]
  | cons c rest ih =>
    rw [List.mem_cons, not_or] at h
    have hrest := ih h.2
    rw [List.cons_append]
    simp only [splitOnChar, hrest]
    rw [if_neg (fun hc => h.1 hc.symm)]

theorem parseDigits_all_digits {cs : List Char} {n : Nat}
    (h : parseDigits cs = some n) : cs ≠ [] ∧ cs.all Char.isDigit = true := by
  unfold parseDigits at h
  split at h
  · rename_i hcond
    exact hcond
  · simp at h

theorem not_mem_of_all_digit {x : Char} {l : List Char}
    (hl : l.all Char.isDigit = true) (hx : x.isDigit = false) : x ∉ l := by
  intro hm
  rw [List.all_eq_true] at hl
  have hd := hl x hm
  rw [hx] at hd
  exact Bool.false_ne_true hd

theorem not_mem_dotted {x : Char} {a b c d : List Char}
    (ha : x ∉ a) (hb : x ∉ b) (hc : x ∉ c) (hd : x ∉ d) (hdot : x ≠ '.') :
    x ∉ a ++ '.' :: (b ++ '.' :: (c ++ '.' :: d)) := by
  simp only [List.mem_append, List.mem_cons, not_or]
  exact ⟨ha, hdot, hb, hdot, hc, hdot, hd⟩

/-- Parse `o1.o2.o3.o4/p` into octet values and prefix length; `none`
unless the string has exactly that shape with numeric components. -/
def parseCidr (s : String) : Option (Nat × Nat × Nat × Nat × Nat) :=
  match pySplit s '/' with
  | [ip, pre] =>
    match (pySplit ip '.').map (fun o => parseDigits o.data) with
    | [some o1, some o2, some o3, some o4] =>
      (parseDigits pre.data).map (fun p => (o1, o2, o3, o4, p))
    | _ => none
  | _ => none

/-- The 32-bit addresses (as octet quadruples) covered by a /24 block
whose network part is `o1.o2.o3`: those agreeing on the first three
octets. -/
def addrSet24 (o1 o2 o3 : Nat) : Set (Nat × Nat × Nat × Nat) :=
  fun q => q.1 = o1 ∧ q.2.1 = o2 ∧ q.2.2.1 = o3

theorem joinDot_four_data (a b c d : String) :
    (joinDot [a, b, c, d]).data =
      a.data ++ '.' :: (b.data ++ '.' :: (c.data ++ '.' :: d.data)) := by
  show (List.intersperse ['.'] [a.data, b.data, c.data, d.data]).flatten = _
  simp [List.intersperse_cons_cons, List.intersperse_singleton]

theorem parseCidr_joinDot (a b c d : String) (na nb nc nd : Nat)
    (ha : parseDigits a.data = some na) (hb : parseDigits b.data = some nb)
    (hc : parseDigits c.data = some nc) (hd : parseDigits d.data = some nd) :
    parseCidr (joinDot [a, b, c, d] ++ "/24") = some (na, nb, nc, nd, 24) := by
  have hada := (parseDigits_all_digits ha).2
  have hbda := (parseDigits_all_digits hb).2
  have hcda := (parseDigits_all_digits hc).2
  have hdda := (parseDigits_all_digits hd).2
  have hdata : (joinDot [a, b, c, d] ++ "/24").data =
      (a.data ++ '.' :: (b.data ++ '.' :: (c.data ++ '.' :: d.data))) ++ '/' :: ['2', '4'] := by
    rw [String.data_append, joinDot_four_data]
  have hsplit1 : pySplit (joinDot [a, b, c, d] ++ "/24") '/' =
      [String.mk (a.data ++ '.' :: (b.data ++ '.' :: (c.data ++ '.' :: d.data))), "24"] := by
    unfold pySplit
    rw [hdata,
      splitOnChar_append_cons _ _ _ (not_mem_dotted
        (not_mem_of_all_digit hada (by decide)) (not_mem_of_all_digit hbda (by decide))
        (not_mem_of_all_digit hcda (by decide)) (not_mem_of_all_digit hdda (by decide))
        (by decide)),
      splitOnChar_not_mem _ _ (by decide)]
    rfl
  have hsplit2 : pySplit
      (String.mk (a.data ++ '.' :: (b.data ++ '.' :: (c.data ++ '.' :: d.data)))) '.' =
      [a, b, c, d] := by
    unfold pySplit
    show (splitOnChar '.'
      (a.data ++ '.' :: (b.data ++ '.' :: (c.data ++ '.' :: d.data)))).map String.mk = _
    rw [splitOnChar_append_cons _ _ _ (not_mem_of_all_digit hada (by decide)),
      splitOnChar_append_cons _ _ _ (not_mem_of_all_digit hbda (by decide)),
      splitOnChar_append_cons _ _ _ (not_mem_of_all_digit hcda (by decide)),
      splitOnChar_not_mem _ _ (not_mem_of_all_digit hdda (by decide))]
    rfl
  have h24 : parseDigits (String.data "24") = some 24 := rfl
  unfold parseCidr
  rw [hsplit1]
  dsimp only
  rw [hsplit2]
  simp [ha, hb, hc, hd, h24]

/-- Claim C3: (i) for every parent range whose base address (the text
before `/`) splits at `.` into four components, the derived range is the
parent's components with the third replaced by the decimal index,
joined with dots and suffixed `/24`; (ii) for every well-formed
top-level range with prefix in `[16, 28]`, indices 1 and 2 yield two
distinct `/24` ranges sharing the parent's first two octets whose
address blocks are disjoint. -/
theorem claim_c3_deriveSubnetRange :
    (∀ (c a b c3 d : String) (i : Int),
        pySplit ((pySplit c '/').headD "") '.' = [a, b, c3, d] →
        calculateSubnetCidr c i = some (joinDot [a, b, toString i, d] ++ "/24")) ∧
    (∀ (c ip pre a b c3 d : String) (na nb nc nd : Nat) (pr : Int),
        pySplit c '/' = [ip, pre] →
        pySplit ip '.' = [a, b, c3, d] →
        parseDigits a.data = some na → na ≤ 255 →
        parseDigits b.data = some nb → nb ≤ 255 →
        parseDigits c3.data = some nc → nc ≤ 255 →
        parseDigits d.data = some nd → nd ≤ 255 →
        pythonInt pre = some pr → 16 ≤ pr → pr ≤ 28 →
        ∃ s1 s2,
          calculateSubnetCidr c 1 = some s1 ∧
          calculateSubnetCidr c 2 = some s2 ∧
          parseCidr s1 = some (na, nb, 1, nd, 24) ∧
          parseCidr s2 = some (na, nb, 2, nd, 24) ∧
          s1 ≠ s2 ∧
          Disjoint (addrSet24 na nb 1) (addrSet24 na nb 2)) := by
  have part1 : ∀ (c a b c3 d : String) (i : Int),
      pySplit ((pySplit c '/').headD "") '.' = [a, b, c3, d] →
      calculateSubnetCidr c i = some (joinDot [a, b, toString i, d] ++ "/24") := by
    intro c a b c3 d i hsq
    simp only [calculateSubnetCidr]
    rw [hsq]
    rfl
  refine ⟨part1, ?_⟩
  intro c ip pre a b c3 d na nb nc nd pr hsplit hip ha _ hb _ hc _ hd _ hp _ _
  have hhead : pySplit ((pySplit c '/').headD "") '.' = [a, b, c3, d] := by
    rw [hsplit]
    exact hip
  have hs1 := part1 c a b c3 d 1 hhead
  have hs2 := part1 c a b c3 d 2 hhead
  have ht1 : toString (1 : Int) = "1" := rfl
  have ht2 : toString (2 : Int) = "2" := rfl
  rw [ht1] at hs1
  rw [ht2] at hs2
  have hp1 : parseCidr (joinDot [a, b, "1", d] ++ "/24") = some (na, nb, 1, nd, 24) :=
    parseCidr_joinDot a b "1" d na nb 1 nd ha hb rfl hd
  have hp2 : parseCidr (joinDot [a, b, "2", d] ++ "/24") = some (na, nb, 2, nd, 24) :=
    parseCidr_joinDot a b "2" d na nb 2 nd ha hb rfl hd
  refine ⟨_, _, hs1, hs2, hp1, hp2, ?_, ?_⟩
  · intro heq
    have := hp1.symm.trans ((congrArg parseCidr heq).trans hp2)
    simp at this
  · rw [Set.disjoint_left]
    rintro ⟨q1, q2, q3, q4⟩ hq1 hq2
    have h1 : q3 = 1 := hq1.2.2
    have h2 : q3 = 2 := hq2.2.2
    omega

/-- Witness for C3 at the concrete parent range `10.0.0.0/16`. -/
theorem claim_c3_witness :
    ∃ s1 s2,
      calculateSubnetCidr "10.0.0.0/16" 1 = some s1 ∧
      calculateSubnetCidr "10.0.0.0/16" 2 = some s2 ∧
      parseCidr s1 = some (10, 0, 1, 0, 24) ∧
      parseCidr s2 = some (10, 0, 2, 0, 24) ∧
      s1 ≠ s2 ∧
      Disjoint (addrSet24 10 0 1) (addrSet24 10 0 2) :=
  claim_c3_deriveSubnetRange.2 "10.0.0.0/16" "10.0.0.0" "16" "10" "0" "0" "0"
    10 0 0 0 16 rfl rfl rfl (by decide) rfl (by decide) rfl (by decide) rfl
    (by decide) rfl (by decide) (by decide)

end VpcApi
